import Mathlib

/- Verification of the ORB_SLAM2 `System` orchestration layer (System.cc):
   trajectory export with culled-keyframe recovery, the mode/reset request
   state machine, map persistence, shutdown ordering, and the map-change
   observation counter.  Poses are modelled as 4x4 matrices with exact
   rational entries in place of `float`. -/

namespace ORBSLAM2

/-- A 4x4 homogeneous transform, modelling a `cv::Mat` pose matrix. -/
abbrev Mat4 := Matrix (Fin 4) (Fin 4) ℚ

/-- A 3x3 rotation block. -/
abbrev Mat3 := Matrix (Fin 3) (Fin 3) ℚ

/-- Modelled from the spec: the per-keyframe data of `KeyFrame` (KeyFrame.cc is
not under src/): id, frame id, timestamp, bad (culled) flag, the stored
relative-to-parent transform `mTcp` (valid once bad), the world pose `Tcw`
(`GetPose`) and its cached inverse (`GetPoseInverse`). -/
structure KFData where
  mnId : Nat
  mnFrameId : Nat
  mTimeStamp : ℚ
  bad : Bool
  mTcp : Mat4
  pose : Mat4
  poseInv : Mat4

/-- A keyframe together with its spanning-tree ancestry: `root` has a null
parent (`GetParent` returns null there), `child` carries its parent keyframe. -/
inductive KeyFrame where
  | root (d : KFData)
  | child (d : KFData) (parent : KeyFrame)

def KeyFrame.data : KeyFrame → KFData
  | .root d => d
  | .child d _ => d

/-- `KeyFrame::GetParent`, null modelled as `none`. -/
def KeyFrame.parent : KeyFrame → Option KeyFrame
  | .root _ => none
  | .child _ p => some p

def KeyFrame.mnId (k : KeyFrame) : Nat := k.data.mnId

def KeyFrame.mnFrameId (k : KeyFrame) : Nat := k.data.mnFrameId

def KeyFrame.mTimeStamp (k : KeyFrame) : ℚ := k.data.mTimeStamp

/-- `KeyFrame::isBad`. -/
def KeyFrame.isBad (k : KeyFrame) : Bool := k.data.bad

def KeyFrame.mTcp (k : KeyFrame) : Mat4 := k.data.mTcp

/-- `KeyFrame::GetPose`. -/
def KeyFrame.GetPose (k : KeyFrame) : Mat4 := k.data.pose

/-- `KeyFrame::GetPoseInverse` (the cached inverse pose `Twc`). -/
def KeyFrame.GetPoseInverse (k : KeyFrame) : Mat4 := k.data.poseInv

/-- The culled-reference recovery loop of `SaveTrajectoryTUM` and
`SaveTrajectoryKITTI`:
`while(pKF->isBad()) { Trw = Trw*pKF->mTcp; pKF = pKF->GetParent(); }`.
Returns the accumulated `Trw` together with the first non-bad ancestor;
`none` models the null-parent dereference when every ancestor of a bad
keyframe is itself bad. -/
def cullWalk : Mat4 → KeyFrame → Option (Mat4 × KeyFrame)
  | acc, .root d => if d.bad then none else some (acc, .root d)
  | acc, .child d p =>
      if d.bad then cullWalk (acc * d.mTcp) p else some (acc, .child d p)

/-- `Trw = Trw*pKF->GetPose()*Two` after the recovery loop. -/
def frameTrw (Two : Mat4) (kf : KeyFrame) : Option Mat4 :=
  (cullWalk 1 kf).map fun r => r.1 * r.2.GetPose * Two

/-- `Tcw = (*lit)*Trw`: the exported camera pose of one logged frame, composed
from its logged relative pose and the recovered reference transform. -/
def frameTcw (Two rel : Mat4) (kf : KeyFrame) : Option Mat4 :=
  (frameTrw Two kf).map fun trw => rel * trw

/-- `Tcw.rowRange(0,3).colRange(0,3)`: the rotation block of a pose. -/
def rotBlock (T : Mat4) : Mat3 :=
  Matrix.of fun i j => T i.castSucc j.castSucc

/-- `Rwc = Tcw.rowRange(0,3).colRange(0,3).t()`. -/
def rwcOf (T : Mat4) : Mat3 := (rotBlock T).transpose

/-- `Tcw.rowRange(0,3).col(3)`: the translation column of a pose. -/
def translCol (T : Mat4) : Fin 3 → ℚ := fun i => T i.castSucc 3

/-- `twc = -Rwc*Tcw.rowRange(0,3).col(3)`: the exported camera center. -/
def twcOf (T : Mat4) : Fin 3 → ℚ := -((rwcOf T).mulVec (translCol T))

/-- One entry of the tracker's four lockstep trajectory logs
(`mlRelativeFramePoses`, `mlpReferences`, `mlFrameTimes`, `mlbLost`). -/
structure FrameEntry where
  rel : Mat4
  ref : KeyFrame
  time : ℚ
  lost : Bool

/-- A TUM-encoding output line: timestamp, camera center, and orientation
(carried as the rotation `Rwc`; the quaternion conversion is the external
`Converter`, out of scope). -/
abbrev TUMLine := ℚ × (Fin 3 → ℚ) × Mat3

/-- A KITTI-encoding output line: rotation `Rwc` and camera center, no
timestamp. -/
abbrev KITTILine := Mat3 × (Fin 3 → ℚ)

/-- The per-frame loop of `SaveTrajectoryTUM`: frames flagged lost are skipped
(`if(*lbL) continue;`); `none` models the crash of an unrecoverable ancestry
walk. -/
def tumLines (Two : Mat4) : List FrameEntry → Option (List TUMLine)
  | [] => some []
  | e :: rest =>
      if e.lost then tumLines Two rest
      else
        (frameTcw Two e.rel e.ref).bind fun tcw =>
          (tumLines Two rest).map fun ls => (e.time, twcOf tcw, rwcOf tcw) :: ls

/-- The per-frame loop of `SaveTrajectoryKITTI`: it iterates only the pose,
reference and timestamp logs and never consults the lost flag. -/
def kittiLines (Two : Mat4) : List FrameEntry → Option (List KITTILine)
  | [] => some []
  | e :: rest =>
      (frameTcw Two e.rel e.ref).bind fun tcw =>
        (kittiLines Two rest).map fun ls => (rwcOf tcw, twcOf tcw) :: ls

/-- The configured sensor modality (`System::eSensor`). -/
inductive Sensor where
  | MONOCULAR
  | STEREO
  | RGBD
deriving DecidableEq

/-- The comparator `KeyFrame::lId` as a preorder on keyframes. -/
def kfLe (a b : KeyFrame) : Prop := a.mnId ≤ b.mnId

instance : DecidableRel kfLe := fun a b => Nat.decLe a.mnId b.mnId

instance : IsTotal KeyFrame kfLe := ⟨fun a b => Nat.le_total a.mnId b.mnId⟩

instance : IsTrans KeyFrame kfLe := ⟨fun _ _ _ h h' => Nat.le_trans h h'⟩

/-- `sort(vpKFs.begin(), vpKFs.end(), KeyFrame::lId)`. -/
def sortById (kfs : List KeyFrame) : List KeyFrame := List.insertionSort kfLe kfs

/-- `System::SaveTrajectoryTUM`: refused for monocular before the file is
opened; otherwise `Two` is the inverse pose of the lowest-id keyframe
(`vpKFs[0]->GetPoseInverse()`); `none` also models the out-of-bounds
`vpKFs[0]` on an empty map. -/
def saveTrajectoryTUM (sensor : Sensor) (kfs : List KeyFrame)
    (log : List FrameEntry) : Option (List TUMLine) :=
  if sensor = Sensor.MONOCULAR then none
  else
    match (sortById kfs).head? with
    | none => none
    | some kf0 => tumLines kf0.GetPoseInverse log

/-- `System::SaveTrajectoryKITTI`: same guard and anchor as the TUM encoding,
but its loop never checks the lost flag. -/
def saveTrajectoryKITTI (sensor : Sensor) (kfs : List KeyFrame)
    (log : List FrameEntry) : Option (List KITTILine) :=
  if sensor = Sensor.MONOCULAR then none
  else
    match (sortById kfs).head? with
    | none => none
    | some kf0 => kittiLines kf0.GetPoseInverse log

/-- Modelled from the spec: `KeyFrame::GetRotation` (KeyFrame.cc is not under
src/) — the rotation block of the keyframe's own pose. -/
def KeyFrame.GetRotation (k : KeyFrame) : Mat3 := rotBlock k.GetPose

/-- Modelled from the spec: `KeyFrame::GetCameraCenter` (KeyFrame.cc is not
under src/) — the camera center computed directly from the keyframe's own
pose, `-R^T t`. -/
def KeyFrame.GetCameraCenter (k : KeyFrame) : Fin 3 → ℚ := twcOf k.GetPose

/-- A keyframe-trajectory output line: timestamp, camera center, orientation
(carried as `R = pKF->GetRotation().t()`; quaternion conversion external). -/
abbrev KFLine := ℚ × (Fin 3 → ℚ) × Mat3

def kfLineOf (k : KeyFrame) : KFLine :=
  (k.mTimeStamp, k.GetCameraCenter, k.GetRotation.transpose)

/-- The per-keyframe loop of `SaveKeyFrameTrajectoryTUM`: bad keyframes are
skipped (`if(pKF->isBad()) continue;`). -/
def kfLines : List KeyFrame → List KFLine
  | [] => []
  | k :: rest => if k.isBad then kfLines rest else kfLineOf k :: kfLines rest

/-- `System::SaveKeyFrameTrajectoryTUM`: no sensor guard, sorted by id. -/
def saveKeyFrameTrajectoryTUM (kfs : List KeyFrame) : List KFLine :=
  kfLines (sortById kfs)

/-- Number of log entries flagged lost. -/
def countLost (log : List FrameEntry) : Nat := log.countP fun e => e.lost

/-- Observable side effects of the orchestrator on its collaborators. -/
inductive Event where
  | lmRequestStop
  | lmWaitStopped
  | informOnlyTracking (b : Bool)
  | lmRelease
  | trackerResetEv
  | trackerResetAfterLoaded
  | grab (s : Sensor)
  | reqFinishLM
  | reqFinishLC
  | reqFinishViewer
  | waitViewerFinished
  | diag
deriving DecidableEq

/-- The orchestrator state visible to the mode/reset machinery: the four
request flags, the tracker's localization-only mode, and whether the local
mapper is currently stopped. -/
structure FlagState where
  mbActivateLocalizationMode : Bool
  mbDeactivateLocalizationMode : Bool
  mbReset : Bool
  mbResetAndLoad : Bool
  onlyTracking : Bool
  lmStopped : Bool
deriving DecidableEq

/-- The `Check mode change` block shared verbatim by the three ingestion entry
points: consume Activate first (stop local mapping, wait, switch tracking to
localization-only), then Deactivate (switch back, release local mapping). -/
def checkModeChange (s : FlagState) : FlagState × List Event :=
  let r1 :=
    if s.mbActivateLocalizationMode then
      ({ s with lmStopped := true, onlyTracking := true,
                mbActivateLocalizationMode := false },
       [Event.lmRequestStop, Event.lmWaitStopped, Event.informOnlyTracking true])
    else (s, [])
  let r2 :=
    if r1.1.mbDeactivateLocalizationMode then
      ({ r1.1 with onlyTracking := false, lmStopped := false,
                   mbDeactivateLocalizationMode := false },
       [Event.informOnlyTracking false, Event.lmRelease])
    else (r1.1, [])
  (r2.1, r1.2 ++ r2.2)

/-- The `Check reset` block: consume the Reset flag, `mpTracker->Reset()`. -/
def checkReset (s : FlagState) : FlagState × List Event :=
  if s.mbReset then ({ s with mbReset := false }, [Event.trackerResetEv])
  else (s, [])

/-- The `Check reset and load` block (present only in `TrackMonocular`):
consume the ResetAndLoad flag, `mpTracker->ResetAfterLoaded()`. -/
def checkResetAndLoad (s : FlagState) : FlagState × List Event :=
  if s.mbResetAndLoad then
    ({ s with mbResetAndLoad := false }, [Event.trackerResetAfterLoaded])
  else (s, [])

/-- `System::TrackStereo`: mode change, reset, then hand the frame to the
tracking engine.  There is no ResetAndLoad block. -/
def trackStereo (s : FlagState) : FlagState × List Event :=
  let r1 := checkModeChange s
  let r2 := checkReset r1.1
  (r2.1, r1.2 ++ r2.2 ++ [Event.grab Sensor.STEREO])

/-- `System::TrackRGBD`: identical mode/reset handling to the stereo path. -/
def trackRGBD (s : FlagState) : FlagState × List Event :=
  let r1 := checkModeChange s
  let r2 := checkReset r1.1
  (r2.1, r1.2 ++ r2.2 ++ [Event.grab Sensor.RGBD])

/-- `System::TrackMonocular`: mode change, reset, reset-and-load, then grab. -/
def trackMonocular (s : FlagState) : FlagState × List Event :=
  let r1 := checkModeChange s
  let r2 := checkReset r1.1
  let r3 := checkResetAndLoad r2.1
  (r3.1, r1.2 ++ r2.2 ++ r3.2 ++ [Event.grab Sensor.MONOCULAR])

/-- The spec-level trace of the mode-change block. -/
def modeTrace (s : FlagState) : List Event :=
  (if s.mbActivateLocalizationMode then
      [Event.lmRequestStop, Event.lmWaitStopped, Event.informOnlyTracking true]
   else []) ++
  (if s.mbDeactivateLocalizationMode then
      [Event.informOnlyTracking false, Event.lmRelease]
   else [])

/-- The spec-level trace of the reset block. -/
def resetTrace (s : FlagState) : List Event :=
  if s.mbReset then [Event.trackerResetEv] else []

/-- The spec-level trace of the reset-and-load block. -/
def ralTrace (s : FlagState) : List Event :=
  if s.mbResetAndLoad then [Event.trackerResetAfterLoaded] else []

/-- The two objects serialized into a map file, in write order. -/
inductive FileObj where
  | mapObj
  | indexObj
deriving DecidableEq

/-- `System::SaveMap`.  Tracking-state encoding modelled from the spec
(Tracking.h is not under src/): OK = 2, LOST = 3.  Result: the events emitted
to collaborators, the file content written (if any), and whether the call
terminates the process (`exit(-1)` on an unwritable file). -/
def saveMap (trackingState : Int) (openOk : Bool) :
    List Event × Option (List FileObj) × Bool :=
  if trackingState = 3 ∨ trackingState = 2 then
    if openOk then
      ([Event.lmRequestStop, Event.lmWaitStopped, Event.lmRelease],
       some [FileObj.mapObj, FileObj.indexObj], false)
    else ([Event.lmRequestStop, Event.lmWaitStopped], none, true)
  else ([Event.diag], none, false)

/-- The frame-id counter loop shared by `System::LoadMap` and
`System::LoadMapDuring`: `mnFrameId` starts at 0 and is raised to every
strictly larger loaded `mnFrameId`; the result is assigned to
`Frame::nNextId`. -/
def loadedNextFrameId (kfs : List KeyFrame) : Nat :=
  kfs.foldl (fun m k => if k.mnFrameId > m then k.mnFrameId else m) 0

/-- A serialized map file: the keyframes of the map object and an abstract
identifier for the serialized place-recognition index. -/
structure MapFile where
  keyframes : List KeyFrame
  index : Nat

/-- The persistent map-related state of a `System`: the map's keyframes, the
place-recognition index, and the global `Frame::nNextId` counter. -/
structure SysMaps where
  keyframes : List KeyFrame
  index : Nat
  nextFrameId : Nat

/-- `System::LoadMap`: `none` models a missing or unreadable file, on which
the function returns false before touching any state; on success the map and
index are replaced by the deserialized objects and `Frame::nNextId` is set
from the loaded keyframes. -/
def loadMap (file : Option MapFile) (s : SysMaps) : Bool × SysMaps :=
  match file with
  | none => (false, s)
  | some f =>
      (true,
       { keyframes := f.keyframes, index := f.index,
         nextFrameId := loadedNextFrameId f.keyframes })

/-- The `.bin` suffix recognized by the constructor (`has_suffix`). -/
def binSuffix : List Char := ['.', 'b', 'i', 'n']

/-- The map-related part of the `System` constructor: the map path is kept
only with a `.bin` suffix; `LoadMap` runs only on a nonempty path
(`!mapfile.empty() && LoadMap(mapfile)`); on load failure a fresh empty Map
and place-recognition index are created and the run is not marked as reusing
a map. -/
def systemInit (strMapFile : List Char) (file : Option MapFile)
    (s0 : SysMaps) : Bool × SysMaps :=
  let mapfile := if binSuffix.isSuffixOf strMapFile then strMapFile else []
  let r := if mapfile.isEmpty then (false, s0) else loadMap file s0
  if r.1 then (true, r.2) else (false, { r.2 with keyframes := [], index := 0 })

/-- The environment polled by `System::Shutdown`: each predicate gives the
answer a collaborator returns to a poll at a given poll instant. -/
structure ShutdownEnv where
  viewerFinished : Nat → Bool
  lmFinished : Nat → Bool
  lcFinished : Nat → Bool
  gbaRunning : Nat → Bool

/-- A fuelled polling loop: the first instant at or after `t0` at which `p`
answers true, or `none` when the fuel runs out (the real loop has no such
bound and would spin forever). -/
def waitUntil (p : Nat → Bool) : Nat → Nat → Option Nat
  | 0, _ => none
  | fuel + 1, t0 => if p t0 then some t0 else waitUntil p fuel (t0 + 1)

/-- `System::Shutdown`: request local-mapping then loop-closing to finish; if
a viewer exists, request it to finish and poll until it is finished; then
poll until local-mapping and loop-closing are finished and no global bundle
adjustment is running.  Returns the emitted trace and the poll instant at
which the final wait succeeded. -/
def shutdown (env : ShutdownEnv) (hasViewer : Bool) (fuel : Nat) :
    Option (List Event × Nat) :=
  let pre := [Event.reqFinishLM, Event.reqFinishLC]
  let done := fun t => env.lmFinished t && env.lcFinished t && !env.gbaRunning t
  if hasViewer then
    (waitUntil env.viewerFinished fuel 0).bind fun t1 =>
      (waitUntil done fuel (t1 + 1)).map fun t2 =>
        (pre ++ [Event.reqFinishViewer, Event.waitViewerFinished], t2)
  else
    (waitUntil done fuel 0).map fun t2 => (pre, t2)

/-- `System::MapChanged` with its function-static counter made explicit:
given the shared last-observed generation `n` and the map's current
`GetLastBigChangeIdx()` value `curn`, return the call's result and the new
shared counter value. -/
def mapChangedStep (n curn : Int) : Bool × Int :=
  if n < curn then (true, curn) else (false, n)

/-- The initial value of `MapChanged`'s function-static counter
(`static int n=0`), shared by every `System` instance in the process. -/
def mapChangedInit : Int := 0

/-- The non-bad ancestry-chain predicate used to state the culled-reference
recovery claim: `badChainTo k bs a` says the walk from `k` passes exactly
through the bad keyframes `bs` (starting with `k` itself when it is bad) and
stops at the first non-bad ancestor `a`. -/
def badChainTo : KeyFrame → List KeyFrame → KeyFrame → Prop
  | k, [], a => k = a ∧ a.isBad = false
  | k, b :: rest, a =>
      b = k ∧ k.isBad = true ∧ ∃ p, k.parent = some p ∧ badChainTo p rest a

/-- Concrete non-bad root keyframe used by witnesses. -/
def dRootEx : KFData :=
  { mnId := 0, mnFrameId := 0, mTimeStamp := 0, bad := false,
    mTcp := 1, pose := 1, poseInv := 1 }

/-- Concrete bad child keyframe data used by witnesses. -/
def dK1Ex : KFData :=
  { mnId := 1, mnFrameId := 1, mTimeStamp := 0, bad := true,
    mTcp := 1, pose := 1, poseInv := 1 }

def kfRootEx : KeyFrame := .root dRootEx

def kfK1Ex : KeyFrame := .child dK1Ex kfRootEx

/-- A logged frame flagged lost, referencing the non-bad root. -/
def lostEx : FrameEntry := { rel := 1, ref := kfRootEx, time := 0, lost := true }

/-- A keyframe whose loaded frame id is 5, for the frame-id counter claim. -/
def kfFrameId5 : KeyFrame :=
  .root { mnId := 0, mnFrameId := 5, mTimeStamp := 0, bad := false,
          mTcp := 1, pose := 1, poseInv := 1 }

/-- A flag state with only ResetAndLoad pending. -/
def sRalEx : FlagState :=
  { mbActivateLocalizationMode := false, mbDeactivateLocalizationMode := false,
    mbReset := false, mbResetAndLoad := true,
    onlyTracking := false, lmStopped := false }

/-- A flag state with both Activate and Deactivate pending. -/
def sBothEx : FlagState :=
  { mbActivateLocalizationMode := true, mbDeactivateLocalizationMode := true,
    mbReset := false, mbResetAndLoad := false,
    onlyTracking := false, lmStopped := false }

/-- A shutdown environment in which every collaborator is already finished. -/
def envEx : ShutdownEnv :=
  { viewerFinished := fun _ => true, lmFinished := fun _ => true,
    lcFinished := fun _ => true, gbaRunning := fun _ => false }

/-- The recovery loop accumulates exactly the product of the `mTcp` transforms
of the bad keyframes along the chain, stopping at the first non-bad
ancestor. -/
theorem cullWalk_badChain :
    ∀ (bs : List KeyFrame) (k a : KeyFrame), badChainTo k bs a →
      ∀ acc : Mat4, cullWalk acc k = some (acc * (bs.map KeyFrame.mTcp).prod, a) := by
  intro bs
  induction bs with
  | nil =>
      intro k a h acc
      obtain ⟨hk, hbad⟩ := h
      subst hk
      cases k with
      | root d =>
          simp only [KeyFrame.isBad, KeyFrame.data] at hbad
          simp [cullWalk, hbad]
      | child d p =>
          simp only [KeyFrame.isBad, KeyFrame.data] at hbad
          simp [cullWalk, hbad]
  | cons b rest ih =>
      intro k a h acc
      obtain ⟨hb, hbad, p, hp, hchain⟩ := h
      cases k with
      | root d => simp [KeyFrame.parent] at hp
      | child d q =>
          simp only [KeyFrame.parent, Option.some.injEq] at hp
          subst hp
          simp only [KeyFrame.isBad, KeyFrame.data] at hbad
          have hrec := ih q a hchain (acc * d.mTcp)
          simp only [cullWalk, hbad, if_true, hrec, Option.some.injEq]
          subst hb
          simp [KeyFrame.mTcp, KeyFrame.data, mul_assoc]

/-- Claim C1: for a logged frame whose reference keyframe `k` is bad, the
camera-trajectory export recovers the pose by walking the parent chain,
accumulating the stored relative-to-parent transforms of the bad nodes up to
the first non-bad ancestor `a`, composing with `pose(a)` and the anchor `Two`,
prefixing the frame's logged relative pose, and inverting the result for the
emitted camera center and orientation; a chain with bad nodes `bs` exports
`rel * prod(mTcp bs) * pose(a) * Two`. -/
theorem saveTrajectory_culledReference (Two rel : Mat4) (k a : KeyFrame)
    (bs : List KeyFrame) (hchain : badChainTo k bs a) (_hbad : k.isBad = true) :
    frameTcw Two rel k =
      some (rel * ((bs.map KeyFrame.mTcp).prod * (a.GetPose * Two))) ∧
    ∀ τ : ℚ,
      tumLines Two [{ rel := rel, ref := k, time := τ, lost := false }] =
        some [(τ,
          twcOf (rel * ((bs.map KeyFrame.mTcp).prod * (a.GetPose * Two))),
          rwcOf (rel * ((bs.map KeyFrame.mTcp).prod * (a.GetPose * Two))))] := by
  have hw := cullWalk_badChain bs k a hchain 1
  have htcw : frameTcw Two rel k =
      some (rel * ((bs.map KeyFrame.mTcp).prod * (a.GetPose * Two))) := by
    simp [frameTcw, frameTrw, hw, one_mul, mul_assoc]
  refine ⟨htcw, fun τ => ?_⟩
  simp [tumLines, htcw]

/-- Witness for the culled-reference recovery claim: the synthetic chain
`root → K1` with `K1` bad, a frame referencing `K1`. -/
theorem saveTrajectory_culledReference_witness :
    kfK1Ex.isBad = true ∧
    frameTcw 1 1 kfK1Ex =
      some (1 * (([kfK1Ex].map KeyFrame.mTcp).prod * (kfRootEx.GetPose * 1))) := by
  refine ⟨rfl, ?_⟩
  exact (saveTrajectory_culledReference 1 1 kfK1Ex kfRootEx [kfK1Ex]
    ⟨rfl, rfl, kfRootEx, rfl, rfl, rfl⟩ rfl).1

/-- The TUM per-frame loop emits one line per non-lost frame. -/
theorem countLost_cons (e : FrameEntry) (rest : List FrameEntry) :
    countLost (e :: rest) = countLost rest + (if e.lost then 1 else 0) := by
  simp [countLost, List.countP_cons]

theorem tumLines_length :
    ∀ (Two : Mat4) (log : List FrameEntry) (tl : List TUMLine),
      tumLines Two log = some tl → tl.length = log.length - countLost log := by
  intro Two log
  induction log with
  | nil =>
      intro tl h
      simp [tumLines] at h
      simp [← h, countLost]
  | cons e rest ih =>
      intro tl h
      simp only [tumLines] at h
      cases hl : e.lost with
      | true =>
          rw [hl] at h
          simp only [if_true] at h
          have hlen := ih tl h
          rw [countLost_cons, hl, if_pos rfl, List.length_cons,
            Nat.add_sub_add_right]
          exact hlen
      | false =>
          rw [hl] at h
          simp only [Bool.false_eq_true, if_false] at h
          cases htcw : frameTcw Two e.rel e.ref with
          | none => rw [htcw] at h; simp at h
          | some tcw =>
              rw [htcw] at h
              simp only [Option.some_bind, Option.map_eq_some'] at h
              obtain ⟨ls, hrest, hline⟩ := h
              have hlen := ih ls hrest
              have hle : countLost rest ≤ rest.length := List.countP_le_length _
              rw [← hline, countLost_cons, hl, List.length_cons]
              simp only [Bool.false_eq_true, if_false, Nat.add_zero,
                List.length_cons]
              omega

/-- The KITTI per-frame loop emits one line per frame, lost or not. -/
theorem kittiLines_length :
    ∀ (Two : Mat4) (log : List FrameEntry) (kl : List KITTILine),
      kittiLines Two log = some kl → kl.length = log.length := by
  intro Two log
  induction log with
  | nil =>
      intro kl h
      simp [kittiLines] at h
      simp [← h]
  | cons e rest ih =>
      intro kl h
      simp only [kittiLines] at h
      cases htcw : frameTcw Two e.rel e.ref with
      | none => rw [htcw] at h; simp at h
      | some tcw =>
          rw [htcw] at h
          simp only [Option.some_bind, Option.map_eq_some'] at h
          obtain ⟨ls, hrest, hline⟩ := h
          rw [← hline, List.length_cons, List.length_cons, ih ls hrest]

/-- Claim C2 counterexample: a log holding a single lost frame.  The KITTI
encoding still emits one line for it, so its line count is 1, not
`total ingested frames - frames flagged lost = 0`. -/
theorem kitti_counts_lost_frames :
    (saveTrajectoryKITTI Sensor.STEREO [kfRootEx] [lostEx]).map List.length ≠
      some (([lostEx] : List FrameEntry).length - countLost [lostEx]) := by
  decide

/-- Claim C2 amended: the TUM encoding skips every frame flagged lost, so its
line count is total frames minus lost frames; the KITTI encoding never
consults the lost flag and emits one line per ingested frame. -/
theorem trajectory_line_counts (sensor : Sensor) (kfs : List KeyFrame)
    (log : List FrameEntry) (tl : List TUMLine) (kl : List KITTILine)
    (h1 : saveTrajectoryTUM sensor kfs log = some tl)
    (h2 : saveTrajectoryKITTI sensor kfs log = some kl) :
    tl.length = log.length - countLost log ∧ kl.length = log.length := by
  simp only [saveTrajectoryTUM] at h1
  simp only [saveTrajectoryKITTI] at h2
  by_cases hs : sensor = Sensor.MONOCULAR
  · simp [hs] at h1
  · rw [if_neg hs] at h1 h2
    cases hh : (sortById kfs).head? with
    | none => rw [hh] at h1; simp at h1
    | some kf0 =>
        rw [hh] at h1 h2
        exact ⟨tumLines_length _ log tl h1, kittiLines_length _ log kl h2⟩

/-- Witness for the amended line-count claim at a stereo run with one
keyframe and an empty log. -/
theorem trajectory_line_counts_witness :
    ([] : List TUMLine).length =
        ([] : List FrameEntry).length - countLost [] ∧
      ([] : List KITTILine).length = ([] : List FrameEntry).length :=
  trajectory_line_counts Sensor.STEREO [kfRootEx] [] [] [] rfl rfl

/-- Claim C3 counterexample: with only ResetAndLoad pending, a stereo
ingestion call leaves the flag set and applies no reset-and-load effect —
the stereo (and RGBD) paths have no `Check reset and load` block. -/
theorem trackStereo_ignores_resetAndLoad :
    (trackStereo sRalEx).1.mbResetAndLoad = true ∧
    Event.trackerResetAfterLoaded ∉ (trackStereo sRalEx).2 ∧
    (trackRGBD sRalEx).1.mbResetAndLoad = true ∧
    Event.trackerResetAfterLoaded ∉ (trackRGBD sRalEx).2 := by
  decide

/-- Claim C3 amended: on every ingestion call the pending request flags are
consumed in the fixed order Activate, Deactivate, Reset (and, only on the
monocular path, ResetAndLoad), each effect applied and its flag cleared
before the frame is handed to the tracking engine; the stereo and RGBD paths
leave the ResetAndLoad flag untouched. -/
theorem ingestion_flag_order (s : FlagState) :
    ((trackStereo s).1.mbActivateLocalizationMode = false ∧
     (trackStereo s).1.mbDeactivateLocalizationMode = false ∧
     (trackStereo s).1.mbReset = false ∧
     (trackStereo s).1.mbResetAndLoad = s.mbResetAndLoad ∧
     (trackStereo s).2 =
       modeTrace s ++ resetTrace s ++ [Event.grab Sensor.STEREO]) ∧
    ((trackRGBD s).1.mbActivateLocalizationMode = false ∧
     (trackRGBD s).1.mbDeactivateLocalizationMode = false ∧
     (trackRGBD s).1.mbReset = false ∧
     (trackRGBD s).1.mbResetAndLoad = s.mbResetAndLoad ∧
     (trackRGBD s).2 =
       modeTrace s ++ resetTrace s ++ [Event.grab Sensor.RGBD]) ∧
    ((trackMonocular s).1.mbActivateLocalizationMode = false ∧
     (trackMonocular s).1.mbDeactivateLocalizationMode = false ∧
     (trackMonocular s).1.mbReset = false ∧
     (trackMonocular s).1.mbResetAndLoad = false ∧
     (trackMonocular s).2 =
       modeTrace s ++ resetTrace s ++ ralTrace s ++
         [Event.grab Sensor.MONOCULAR]) := by
  obtain ⟨a, d, r, rl, o, st⟩ := s
  cases a <;> cases d <;> cases r <;> cases rl <;> cases o <;> cases st <;>
    decide

/-- Claim C7: when Activate and Deactivate are both pending at the same
ingestion call, Activate is consumed first and Deactivate second, so the net
effect is the deactivated state: tracking in full-mapping mode, local mapping
released, both flags cleared — on all three modality paths. -/
theorem deactivate_wins (s : FlagState)
    (ha : s.mbActivateLocalizationMode = true)
    (hd : s.mbDeactivateLocalizationMode = true) :
    ((trackStereo s).1.onlyTracking = false ∧
     (trackStereo s).1.lmStopped = false ∧
     (trackStereo s).1.mbActivateLocalizationMode = false ∧
     (trackStereo s).1.mbDeactivateLocalizationMode = false) ∧
    ((trackRGBD s).1.onlyTracking = false ∧
     (trackRGBD s).1.lmStopped = false ∧
     (trackRGBD s).1.mbActivateLocalizationMode = false ∧
     (trackRGBD s).1.mbDeactivateLocalizationMode = false) ∧
    ((trackMonocular s).1.onlyTracking = false ∧
     (trackMonocular s).1.lmStopped = false ∧
     (trackMonocular s).1.mbActivateLocalizationMode = false ∧
     (trackMonocular s).1.mbDeactivateLocalizationMode = false) := by
  obtain ⟨a, d, r, rl, o, st⟩ := s
  simp only at ha hd
  subst ha
  subst hd
  cases r <;> cases rl <;> cases o <;> cases st <;> decide

/-- Witness for the deactivate-wins claim at a state with both mode flags
pending. -/
theorem deactivate_wins_witness :
    ((trackStereo sBothEx).1.onlyTracking = false ∧
     (trackStereo sBothEx).1.lmStopped = false ∧
     (trackStereo sBothEx).1.mbActivateLocalizationMode = false ∧
     (trackStereo sBothEx).1.mbDeactivateLocalizationMode = false) ∧
    ((trackRGBD sBothEx).1.onlyTracking = false ∧
     (trackRGBD sBothEx).1.lmStopped = false ∧
     (trackRGBD sBothEx).1.mbActivateLocalizationMode = false ∧
     (trackRGBD sBothEx).1.mbDeactivateLocalizationMode = false) ∧
    ((trackMonocular sBothEx).1.onlyTracking = false ∧
     (trackMonocular sBothEx).1.lmStopped = false ∧
     (trackMonocular sBothEx).1.mbActivateLocalizationMode = false ∧
     (trackMonocular sBothEx).1.mbDeactivateLocalizationMode = false) :=
  deactivate_wins sBothEx rfl rfl

/-- Claim C4 counterexample: loading a map whose single keyframe has frame id
5 sets the global next-frame-id counter to 5, not to one past the maximum
(6). -/
theorem loadedNextFrameId_not_one_past :
    loadedNextFrameId [kfFrameId5] ≠
      ([kfFrameId5].map KeyFrame.mnFrameId).foldr max 0 + 1 := by
  decide

theorem foldl_if_gt_eq_foldr_max :
    ∀ (l : List Nat) (acc : Nat),
      l.foldl (fun m x => if x > m then x else m) acc = l.foldr max acc := by
  intro l
  induction l with
  | nil => intro acc; rfl
  | cons x l ih =>
      intro acc
      have hstep : (if x > acc then x else acc) = max acc x := by
        rcases Nat.lt_or_ge acc x with h | h
        · simp [h, Nat.max_eq_right (Nat.le_of_lt h)]
        · simp [Nat.not_lt.mpr h, Nat.max_eq_left h]
      have hswap : ∀ (l' : List Nat) (a b : Nat),
          l'.foldr max (max a b) = max b (l'.foldr max a) := by
        intro l'
        induction l' with
        | nil => intro a b; exact Nat.max_comm a b
        | cons y l' ih' =>
            intro a b
            simp only [List.foldr_cons, ih']
            exact max_left_comm y b (List.foldr max a l')
      simp only [List.foldl_cons, List.foldr_cons, hstep, ih, hswap]

/-- Claim C4 amended: after a map load (at construction or during
ResetAndLoad) the global next-frame-id counter equals the maximum frame id
found among the loaded keyframes (0 for an empty map), not one past it. -/
theorem loadedNextFrameId_eq_max (kfs : List KeyFrame) :
    loadedNextFrameId kfs = (kfs.map KeyFrame.mnFrameId).foldr max 0 := by
  unfold loadedNextFrameId
  rw [← List.foldl_map (f := KeyFrame.mnFrameId)
    (g := fun m x => if x > m then x else m)]
  exact foldl_if_gt_eq_foldr_max _ 0

/-- Claim C5: `SaveMap` serializes the Map then the index exactly when the
tracking state is Ok (2) or Lost (3); in every other tracking state it writes
nothing, emits only a diagnostic, does not pause or release local mapping,
and returns without terminating the process. -/
theorem saveMap_guard (st : Int) (openOk : Bool) :
    ((saveMap st openOk).2.1 ≠ none → st = 3 ∨ st = 2) ∧
    (st = 3 ∨ st = 2 → openOk = true →
      saveMap st openOk =
        ([Event.lmRequestStop, Event.lmWaitStopped, Event.lmRelease],
         some [FileObj.mapObj, FileObj.indexObj], false)) ∧
    (¬(st = 3 ∨ st = 2) → saveMap st openOk = ([Event.diag], none, false)) := by
  by_cases h : st = 3 ∨ st = 2
  · cases openOk <;> simp [saveMap, h]
  · simp [saveMap, h]

/-- Witness for the `SaveMap` guard claim at tracking state Ok with a
writable file. -/
theorem saveMap_guard_witness :
    saveMap 2 true =
      ([Event.lmRequestStop, Event.lmWaitStopped, Event.lmRelease],
       some [FileObj.mapObj, FileObj.indexObj], false) :=
  (saveMap_guard 2 true).2.1 (Or.inr rfl) rfl

/-- A fuelled wait that succeeds did observe its predicate true, at an
instant no earlier than where it started polling. -/
theorem waitUntil_spec :
    ∀ (fuel t0 t : Nat) (p : Nat → Bool),
      waitUntil p fuel t0 = some t → p t = true ∧ t0 ≤ t := by
  intro fuel
  induction fuel with
  | zero => intro t0 t p h; simp [waitUntil] at h
  | succ fuel ih =>
      intro t0 t p h
      simp only [waitUntil] at h
      by_cases hp : p t0 = true
      · rw [if_pos hp] at h
        simp only [Option.some.injEq] at h
        subst h
        exact ⟨hp, Nat.le_refl t0⟩
      · rw [if_neg hp] at h
        obtain ⟨h1, h2⟩ := ih (t0 + 1) t p h
        exact ⟨h1, Nat.le_of_succ_le h2⟩

/-- Claim C6: when `Shutdown` returns, it has first requested local-mapping
and loop-closing to finish; with a viewer it requested the viewer to finish
and blocked until the viewer was finished strictly before the final wait
completed; and at the instant it returns, local-mapping is finished,
loop-closing is finished, and no global bundle adjustment is running. -/
theorem shutdown_order (env : ShutdownEnv) (hv : Bool) (fuel : Nat)
    (tr : List Event) (t : Nat) (h : shutdown env hv fuel = some (tr, t)) :
    env.lmFinished t = true ∧ env.lcFinished t = true ∧
    env.gbaRunning t = false ∧
    tr.take 2 = [Event.reqFinishLM, Event.reqFinishLC] ∧
    (hv = true → ∃ tv, tv < t ∧ env.viewerFinished tv = true ∧
      tr = [Event.reqFinishLM, Event.reqFinishLC, Event.reqFinishViewer,
            Event.waitViewerFinished]) := by
  cases hv with
  | false =>
      simp only [shutdown, Bool.false_eq_true, if_false, Option.map_eq_some']
        at h
      obtain ⟨t2, hw, heq⟩ := h
      obtain ⟨htr, ht⟩ := Prod.mk.injEq .. ▸ heq
      subst ht
      obtain ⟨hcond, _⟩ := waitUntil_spec fuel 0 t2 _ hw
      simp only [Bool.and_eq_true, Bool.not_eq_true'] at hcond
      refine ⟨hcond.1.1, hcond.1.2, hcond.2, ?_, ?_⟩
      · rw [← htr]
        rfl
      · intro hfalse
        exact absurd hfalse (by simp)
  | true =>
      simp only [shutdown, eq_self_iff_true, if_true, Option.bind_eq_some,
        Option.map_eq_some'] at h
      obtain ⟨t1, hv1, t2, hw, heq⟩ := h
      obtain ⟨htr, ht⟩ := Prod.mk.injEq .. ▸ heq
      subst ht
      obtain ⟨hcond, hge⟩ := waitUntil_spec fuel (t1 + 1) t2 _ hw
      obtain ⟨hvf, _⟩ := waitUntil_spec fuel 0 t1 _ hv1
      simp only [Bool.and_eq_true, Bool.not_eq_true'] at hcond
      refine ⟨hcond.1.1, hcond.1.2, hcond.2, ?_, fun _ =>
        ⟨t1, Nat.lt_of_succ_le hge, hvf, htr.symm⟩⟩
      rw [← htr]
      rfl

/-- Witness for the shutdown-ordering claim: every collaborator answers
finished from the first poll on. -/
theorem shutdown_order_witness :
    envEx.lmFinished 1 = true ∧ envEx.lcFinished 1 = true ∧
    envEx.gbaRunning 1 = false ∧
    ([Event.reqFinishLM, Event.reqFinishLC, Event.reqFinishViewer,
      Event.waitViewerFinished] : List Event).take 2 =
      [Event.reqFinishLM, Event.reqFinishLC] ∧
    (true = true → ∃ tv, tv < 1 ∧ envEx.viewerFinished tv = true ∧
      ([Event.reqFinishLM, Event.reqFinishLC, Event.reqFinishViewer,
        Event.waitViewerFinished] : List Event) =
        [Event.reqFinishLM, Event.reqFinishLC, Event.reqFinishViewer,
         Event.waitViewerFinished]) :=
  shutdown_order envEx true 2
    [Event.reqFinishLM, Event.reqFinishLC, Event.reqFinishViewer,
     Event.waitViewerFinished] 1 rfl

/-- The keyframe-trajectory loop emits exactly the non-bad keyframes, in
list order. -/
theorem kfLines_eq_filter_map :
    ∀ kfs : List KeyFrame,
      kfLines kfs = (kfs.filter fun k => !k.isBad).map kfLineOf := by
  intro kfs
  induction kfs with
  | nil => rfl
  | cons k rest ih =>
      cases hb : k.isBad with
      | true => simp [kfLines, hb, List.filter_cons, ih]
      | false => simp [kfLines, hb, List.filter_cons, ih]

/-- Claim C8: in the Monocular modality both camera-trajectory encodings are
refused (no output, diagnostic only), while the keyframe-trajectory export
succeeds: it emits one line — timestamp, camera center, orientation from the
keyframe's own pose — per non-bad keyframe, with the keyframes arranged in
ascending id order and bad keyframes skipped. -/
theorem monocular_trajectory_exports (kfs : List KeyFrame)
    (log : List FrameEntry) :
    saveTrajectoryTUM Sensor.MONOCULAR kfs log = none ∧
    saveTrajectoryKITTI Sensor.MONOCULAR kfs log = none ∧
    saveKeyFrameTrajectoryTUM kfs =
      ((sortById kfs).filter fun k => !k.isBad).map kfLineOf ∧
    ((sortById kfs).map KeyFrame.mnId).Sorted (fun a b => a ≤ b) := by
  refine ⟨by simp [saveTrajectoryTUM], by simp [saveTrajectoryKITTI],
    kfLines_eq_filter_map (sortById kfs), ?_⟩
  have hs : (sortById kfs).Sorted kfLe := List.sorted_insertionSort kfLe kfs
  exact List.pairwise_map.mpr hs

/-- Claim C9: a missing or unreadable map file is not fatal: `LoadMap`
returns false without touching the map, index or frame-id counter, and the
constructor falls back to a fresh empty Map and place-recognition index
without marking the run as reusing a map. -/
theorem load_failure_fallback (s : SysMaps) (strMapFile : List Char) :
    loadMap none s = (false, s) ∧
    systemInit strMapFile none s =
      (false, { s with keyframes := [], index := 0 }) := by
  constructor
  · rfl
  · unfold systemInit
    by_cases hsuf : binSuffix.isSuffixOf strMapFile
    · simp [hsuf, loadMap]
    · simp [hsuf, loadMap]

/-- Claim C10: `MapChanged` observes the map's last-big-change index through
a single shared counter starting at `mapChangedInit = 0`: a call returns true
exactly when the index strictly exceeds the shared counter, a true return
stores the index into the counter, and a second call against the same index
through the updated counter — e.g. from another `System` instance in the
same process — returns false. -/
theorem mapChanged_shared_counter (n curn : Int) :
    ((mapChangedStep n curn).1 = true ↔ n < curn) ∧
    (mapChangedStep n curn).2 = (if n < curn then curn else n) ∧
    ((mapChangedStep n curn).1 = true →
      (mapChangedStep (mapChangedStep n curn).2 curn).1 = false) := by
  by_cases h : n < curn
  · simp [mapChangedStep, h]
  · simp [mapChangedStep, h]

/-- Witness for the shared-counter claim: a first observation of index 1
succeeds and suppresses a second observation of the same index. -/
theorem mapChanged_shared_counter_witness :
    (mapChangedStep (mapChangedStep mapChangedInit 1).2 1).1 = false :=
  (mapChanged_shared_counter mapChangedInit 1).2.2 (by decide)

end ORBSLAM2
